import Mathlib

/-!
Shallow embedding of the ai_website chat service and a verification of its
specified properties.

The repository has three Python source files:
* `server.py` — a Flask chat endpoint backed by Anthropic (default) or Gemini,
  with topic-thread context assembly and a thread-pooled agent executor;
* `docker/server_llm.py` — a variant backed by a LiteLLM router with a direct
  Anthropic fallback, selecting a persona from `docker/agents_config.py`;
* `docker/agents_config.py` — the static persona catalog.

Python strings are modelled as Lean `String`; the string methods `strip`,
`split` on a newline, `join`, `enumerate(xs, 1)` and dictionary insertion are given explicit
executable counterparts below so that every definition evaluates inside the
kernel.  Completion backends are modelled as explicit function parameters
returning `Except` (a raised exception is `Except.error`); the per-agent
future timeout of the thread pool is modelled by a function giving, per agent
id, the timeout exception (if any) that `future.result(timeout=10)` raises.
The float temperature literals of the source (0.3 … 0.9) only flow through to the
backends unchanged, so they are represented exactly as integers in tenths.
-/

/-- Python `str` whitespace, as used by `str.strip()`. -/
def pyIsSpace (c : Char) : Bool :=
  c == ' ' || c == '\t' || c == '\n' || c == '\r' || c == '\x0b' || c == '\x0c'

/-- Python `s.strip()`: drop leading and trailing whitespace. -/
def pyStrip (s : String) : String :=
  String.mk (((s.data.dropWhile pyIsSpace).reverse.dropWhile pyIsSpace).reverse)

/-- Split a character list at every occurrence of `c` (Python `s.split(c)`;
the result always has one more piece than there are separators). -/
def pySplitOnChar (c : Char) : List Char → List (List Char)
  | [] => [[]]
  | x :: xs =>
    match pySplitOnChar c xs with
    | [] => [[]]
    | r0 :: rs => if x == c then [] :: r0 :: rs else (x :: r0) :: rs

/-- Python `s.split('\n')`. -/
def pySplitLines (s : String) : List String :=
  (pySplitOnChar '\n' s.data).map String.mk

/-- Python `sep.join(parts)`. -/
def pyJoin (sep : String) : List String → String
  | [] => ""
  | [s] => s
  | s :: rest => s ++ sep ++ pyJoin sep rest

/-- Plain concatenation of a list of strings. -/
def concatStr : List String → String
  | [] => ""
  | s :: rest => s ++ concatStr rest

/-- Python `enumerate(xs, i)`. -/
def pyEnumFrom {α : Type} (i : Nat) : List α → List (Nat × α)
  | [] => []
  | x :: xs => (i, x) :: pyEnumFrom (i + 1) xs

/-- Python `d[k] = v` on a dictionary kept as an association list: replace the
existing binding of `k` in place, or append a new one. -/
def pyDictInsert {α : Type} (d : List (String × α)) (k : String) (v : α) :
    List (String × α) :=
  if d.any (fun p => p.1 == k) then
    d.map (fun p => if p.1 == k then (k, v) else p)
  else d ++ [(k, v)]

/-- Python truthiness of an optional string (`None` and `""` are falsy). -/
def truthyS : Option String → Bool
  | none => false
  | some s => !(s == "")

/-- A parent-conversation message (`{sender, text}`). -/
structure Msg where
  sender : String
  text : String
deriving DecidableEq, Repr

/-- A working-memory turn (`{user, assistant}`). -/
structure Turn where
  user : String
  assistant : String
deriving DecidableEq, Repr

/-- The `contextPack` object of a chat request. -/
structure ContextPack where
  isTopicThread : Bool
  selectedText : String
  parentMessages : List Msg
  topicSummary : Option String
  recentTurns : List Turn
deriving DecidableEq, Repr

/-- Message rendering shared verbatim by both servers: the line reads
`User: text` when the sender field is `user`, else `Assistant: text`. -/
def fmtMsg (m : Msg) : String :=
  (if m.sender == "user" then "User" else "Assistant") ++ ": " ++ m.text

namespace Server

/-- Keyword arguments of an `anthropic` `client.messages.create` call made by
`server.py`; `temperature` is in tenths and absent where the call omits it. -/
structure ClaudeParams where
  model : String
  max_tokens : Nat
  temperature : Option Nat
  system : Option String
  messages : List (String × String)
deriving DecidableEq, Repr

/-- The joined text blocks and reported model of a successful Anthropic call. -/
structure ClaudeResp where
  text : String
  model : String
deriving DecidableEq, Repr

/-- The Anthropic client as seen by `server.py`: a call either returns a
response or raises. -/
abbrev ClaudeProv := ClaudeParams → Except String ClaudeResp

/-- The prompt template of `create_topic_summary` in `server.py`. -/
def summaryPromptOf (selected_text conversation_context : String) : String :=
  "You are creating a stable summary of a conversation context for a topic thread.\n\nThe user selected this text from the parent conversation:\n\"" ++ selected_text ++ "\"\n\nParent conversation context:\n" ++ conversation_context ++ "\n\nCreate a concise summary (2-3 sentences) that captures the essential context relevant to the selected topic. This summary will serve as \"long-term memory\" for the topic thread."

/-- `create_topic_summary` of `server.py`: empty parent history short-circuits
to `None`; a provider failure is caught and becomes `None`. -/
def create_topic_summary (prov : ClaudeProv) (parent_messages : List Msg)
    (selected_text : String) : Option String :=
  if parent_messages = [] then none
  else
    let conversation_context := pyJoin "\n" (parent_messages.map fmtMsg)
    let summary_prompt := summaryPromptOf selected_text conversation_context
    match prov { model := "claude-3-haiku-20240307", max_tokens := 200,
                 temperature := none, system := none,
                 messages := [("user", summary_prompt)] } with
    | Except.ok r => some (pyStrip r.text)
    | Except.error _ => none

/-- One entry of the agent dictionary of `AgentRegistry` in `server.py`. -/
structure AgentConfig where
  name : String
  model : String
  max_tokens : Nat
  temperature : Nat
  enabled : Bool
  execution : String
  description : String
deriving DecidableEq, Repr

/-- `AgentRegistry.get_agent_config`: the dictionary holds the single
`"brainstorming"` definition. -/
def AgentRegistry.get_agent_config (agent_type : String) : Option AgentConfig :=
  List.lookup agent_type
    [("brainstorming",
      { name := "Brainstorming Agent", model := "claude-3-haiku-20240307",
        max_tokens := 300, temperature := 9, enabled := true,
        execution := "parallel",
        description := "Generates creative topic ideas from conversations" })]

/-- `AgentRegistry.get_enabled_agents`. -/
def AgentRegistry.get_enabled_agents : List String := ["brainstorming"]

/-- The brainstorming prompt, built over the last 6 messages (3 turns). -/
def brainstormingPrompt (messages : List Msg) : String :=
  let conversation_text :=
    pyJoin "\n" ((messages.drop (messages.length - 6)).map fmtMsg)
  "Based on this conversation, generate 1-3 short, divergent, interesting topic titles that could branch off from this discussion.\n\nConversation:\n" ++ conversation_text ++ "\n\nRequirements:\n- Each title should be 3-7 words maximum\n- Topics should be related but explore different angles\n- Be creative and thought-provoking\n- Return ONLY the titles, one per line\n- No numbering, no explanations\n\nExample format:\nFuture of quantum computing\nEthical implications of AI\nPractical applications today"

/-- The idea parser of `execute_brainstorming_agent`:
`[line.strip() for line in text.strip().split('\n')
  if line.strip() and len(line.strip()) > 3][:3]`. -/
def parseIdeas (response_text : String) : List String :=
  (((pySplitLines (pyStrip response_text)).filter
      (fun line => decide (pyStrip line ≠ "") && decide (3 < (pyStrip line).length))).map
    pyStrip).take 3

/-- A per-agent result dictionary.  `ideas` is `none` when the result dict of
the timed-out branch of `run_agents` carries no `"ideas"` key at all. -/
structure AgentResult where
  success : Bool
  ideas : Option (List String)
  error : Option String
  agent : String
deriving DecidableEq, Repr

/-- `AgentExecutor.execute_brainstorming_agent`: the registry lookup always
succeeds (the fallback record is never consulted), and every raised provider
error is caught into a failure result. -/
def AgentExecutor.execute_brainstorming_agent (prov : ClaudeProv)
    (messages : List Msg) (_context : Option ContextPack) : AgentResult :=
  let config := (AgentRegistry.get_agent_config "brainstorming").getD
    { name := "", model := "", max_tokens := 0, temperature := 0,
      enabled := false, execution := "", description := "" }
  let prompt := brainstormingPrompt messages
  match prov { model := config.model, max_tokens := config.max_tokens,
               temperature := some config.temperature, system := none,
               messages := [("user", prompt)] } with
  | Except.ok r =>
    { success := true, ideas := some (parseIdeas r.text), error := none,
      agent := "brainstorming" }
  | Except.error e =>
    { success := false, ideas := some [], error := some e,
      agent := "brainstorming" }

/-- `AgentExecutor.run_agents`.  `timeoutOf a = some e` means
`future.result(timeout=10)` for agent `a` raised (timed out) with message `e`;
`none` means the future settled in time.  The sequential loop body of the
source is `pass`, so sequential agents contribute nothing. -/
def AgentExecutor.run_agents (prov : ClaudeProv)
    (timeoutOf : String → Option String) (messages : List Msg)
    (context : Option ContextPack) (enabled_agents : Option (List String)) :
    List (String × AgentResult) :=
  let enabled := enabled_agents.getD AgentRegistry.get_enabled_agents
  let part := enabled.foldl
    (fun (acc : List String × List String) agent_type =>
      match AgentRegistry.get_agent_config agent_type with
      | some config =>
        if config.enabled then
          if config.execution == "parallel" then (acc.1 ++ [agent_type], acc.2)
          else (acc.1, acc.2 ++ [agent_type])
        else acc
      | none => acc)
    ([], [])
  let futures := part.1.foldl
    (fun (fs : List (String × AgentResult)) agent_type =>
      if agent_type == "brainstorming" then
        pyDictInsert fs agent_type
          (AgentExecutor.execute_brainstorming_agent prov messages context)
      else fs)
    []
  let results := futures.foldl
    (fun (rs : List (String × AgentResult)) f =>
      match timeoutOf f.1 with
      | none => pyDictInsert rs f.1 f.2
      | some e =>
        pyDictInsert rs f.1
          { success := false, ideas := none, error := some e, agent := f.1 })
    []
  results

/-- The JSON body of a `POST /api/chat` request to `server.py`, after the
per-key extraction with defaults done by the handler (`message` defaults to `""`,
`modelProvider` to `"claude"`, `conversationMessages` to `[]`). -/
structure ChatRequest where
  message : String
  contextPack : Option ContextPack
  enabledAgents : Option (List String)
  modelProvider : String
  conversationMessages : List Msg
deriving Repr

/-- The `response_data` payload of a successful chat. -/
structure RespData where
  response : String
  model : String
  topicSummary : Option String
  agentResults : Option (List (String × AgentResult))
deriving DecidableEq, Repr

/-- The observable outcome of one request to the `chat` handler of
`server.py`: HTTP status, payload or error, and a trace of outgoing calls
(`summaryCalls` counts `create_topic_summary` invocations; `primaryCalls` and
`geminiCalls` record the primary completion call sites; `runAgentsCalls`
counts `AgentExecutor.run_agents` invocations).  `systemPrompt` and
`effectiveUserMessage` are the assembled prompt pair. -/
structure ChatOut where
  status : Nat
  data : Option RespData
  error : Option String
  summaryCalls : Nat
  primaryCalls : List ClaudeParams
  geminiCalls : List String
  runAgentsCalls : Nat
  systemPrompt : String
  effectiveUserMessage : String
deriving Repr

/-- The base system prompt of `server.py`. -/
def baseSystemPrompt : String := "You are a helpful AI assistant."

/-- Lines 259-299 of `server.py`: resolve the topic summary, extend the system
prompt with the long-term-memory and selection blocks, and prepend the
working-memory rendering to the user message.  Returns
`(system_prompt, user_message, number of create_topic_summary calls)`. -/
def assembleContext (prov : ClaudeProv) (context_pack : Option ContextPack)
    (user_message0 : String) : String × String × Nat :=
  match context_pack with
  | some cp =>
    if cp.isTopicThread then
      let selected_text := cp.selectedText
      let parent_messages := cp.parentMessages
      let existing_summary := cp.topicSummary
      let recent_turns := cp.recentTurns
      let step : Option String × Nat :=
        if truthyS existing_summary = false ∧ parent_messages ≠ [] then
          (create_topic_summary prov parent_messages selected_text, 1)
        else (existing_summary, 0)
      let topic_summary := step.1
      let context_parts : List String :=
        (if truthyS topic_summary then
          ["Topic Context (Long-term Memory):\n" ++ topic_summary.getD ""]
         else [])
        ++ (if selected_text ≠ "" then
          ["\nThis topic thread was created from this selection:\n\"" ++ selected_text ++ "\""]
         else [])
      let system_prompt :=
        if context_parts ≠ [] then
          baseSystemPrompt ++ "\n\n" ++ pyJoin "\n" context_parts
        else baseSystemPrompt
      let user_message :=
        if recent_turns ≠ [] then
          let working_memory := (pyEnumFrom 1 recent_turns).foldl
            (fun acc p =>
              acc ++ "\nTurn " ++ toString p.1 ++ ":\nUser: " ++ p.2.user
                ++ "\nAssistant: " ++ p.2.assistant ++ "\n")
            "\n\nRecent conversation (Working Memory):\n"
          working_memory ++ "\nCurrent message:\n" ++ user_message0
        else user_message0
      (system_prompt, user_message, step.2)
    else (baseSystemPrompt, user_message0, 0)
  | none => (baseSystemPrompt, user_message0, 0)

/-- Lines 348-357 of `server.py`: after a successful completion, regenerate a
topic summary for the response payload when none was supplied.  Returns the
`topicSummary` field and the number of `create_topic_summary` calls made. -/
def summaryForResponse (prov : ClaudeProv) (context_pack : Option ContextPack) :
    Option String × Nat :=
  match context_pack with
  | some cp =>
    if cp.isTopicThread then
      if truthyS cp.topicSummary = false ∧ cp.parentMessages ≠ [] then
        let topic_summary := create_topic_summary prov cp.parentMessages cp.selectedText
        ((if truthyS topic_summary then topic_summary else none), 1)
      else (none, 0)
    else (none, 0)
  | none => (none, 0)

/-- Lines 363-375 of `server.py`: run the agent system when conversation
context is present; include its results when non-empty. -/
def runAgentsStep (prov : ClaudeProv) (timeoutOf : String → Option String)
    (data : ChatRequest) : Option (List (String × AgentResult)) × Nat :=
  if data.conversationMessages ≠ [] then
    let agent_results := AgentExecutor.run_agents prov timeoutOf
      data.conversationMessages data.contextPack data.enabledAgents
    ((if agent_results ≠ [] then some agent_results else none), 1)
  else (none, 0)

/-- The tail of a successful `server.py` chat: assemble `response_data`, the
optional regenerated summary and the agent results, and return 200. -/
def chatFinish (prov : ClaudeProv) (timeoutOf : String → Option String)
    (data : ChatRequest) (system_prompt user_message : String) (calls1 : Nat)
    (response_text model_name : String) (primaryCalls : List ClaudeParams)
    (geminiCalls : List String) : ChatOut :=
  let post := summaryForResponse prov data.contextPack
  let ag := runAgentsStep prov timeoutOf data
  { status := 200,
    data := some { response := response_text, model := model_name,
                   topicSummary := post.1, agentResults := ag.1 },
    error := none,
    summaryCalls := calls1 + post.2,
    primaryCalls := primaryCalls,
    geminiCalls := geminiCalls,
    runAgentsCalls := ag.2,
    systemPrompt := system_prompt,
    effectiveUserMessage := user_message }

/-- The `POST /api/chat` handler of `server.py`.  `gemini` is the optional
configured Gemini model; `prov` is the Anthropic client. -/
def chat (prov : ClaudeProv) (gemini : Option (String → Except String String))
    (timeoutOf : String → Option String) (data : ChatRequest) : ChatOut :=
  let user_message := data.message
  if user_message = "" then
    { status := 400, data := none, error := some "No message provided",
      summaryCalls := 0, primaryCalls := [], geminiCalls := [],
      runAgentsCalls := 0, systemPrompt := baseSystemPrompt,
      effectiveUserMessage := user_message }
  else
    let asm := assembleContext prov data.contextPack user_message
    let system_prompt := asm.1
    let user_message := asm.2.1
    let calls1 := asm.2.2
    let messages : List (String × String) := [("user", user_message)]
    if data.modelProvider == "gemini" then
      match gemini with
      | none =>
        { status := 500, data := none,
          error := some "Gemini API key not configured. Add GOOGLE_API_KEY to your .env file.",
          summaryCalls := calls1, primaryCalls := [], geminiCalls := [],
          runAgentsCalls := 0, systemPrompt := system_prompt,
          effectiveUserMessage := user_message }
      | some g =>
        let gemini_prompt :=
          if system_prompt ≠ baseSystemPrompt then
            system_prompt ++ "\n\n" ++ user_message
          else user_message
        match g gemini_prompt with
        | Except.error e =>
          { status := 500, data := none, error := some e,
            summaryCalls := calls1, primaryCalls := [],
            geminiCalls := [gemini_prompt], runAgentsCalls := 0,
            systemPrompt := system_prompt, effectiveUserMessage := user_message }
        | Except.ok response_text =>
          chatFinish prov timeoutOf data system_prompt user_message calls1
            response_text "gemini-1.5-flash" [] [gemini_prompt]
    else
      let api_params : ClaudeParams :=
        { model := "claude-3-haiku-20240307", max_tokens := 2048,
          temperature := none,
          system := if system_prompt ≠ baseSystemPrompt then some system_prompt
                    else none,
          messages := messages }
      match prov api_params with
      | Except.error e =>
        { status := 500, data := none, error := some e, summaryCalls := calls1,
          primaryCalls := [api_params], geminiCalls := [], runAgentsCalls := 0,
          systemPrompt := system_prompt, effectiveUserMessage := user_message }
      | Except.ok r =>
        chatFinish prov timeoutOf data system_prompt user_message calls1
          r.text r.model [api_params] []

end Server

namespace AgentsConfig

/-- One persona record of the `AGENTS` catalog in `docker/agents_config.py`. -/
structure AgentConfig where
  name : String
  model : String
  system_prompt : String
  temperature : Nat
  max_tokens : Nat
  description : String
deriving DecidableEq, Repr

/-- The `AGENTS` dictionary of `docker/agents_config.py`. -/
def AGENTS : List (String × AgentConfig) :=
  [("general",
    { name := "General Assistant", model := "agent-balanced",
      system_prompt := "You are a helpful AI assistant.",
      temperature := 7, max_tokens := 2048,
      description := "Balanced model for general conversation" }),
   ("fast",
    { name := "Quick Response Agent", model := "agent-fast",
      system_prompt := "You are a quick and efficient assistant. Provide concise, helpful answers.",
      temperature := 7, max_tokens := 1024,
      description := "Fast responses for simple queries" }),
   ("researcher",
    { name := "Research Agent", model := "agent-powerful",
      system_prompt := "You are an expert research assistant. Provide detailed, well-researched answers with citations when possible.",
      temperature := 5, max_tokens := 4096,
      description := "Deep research and analysis" }),
   ("coder",
    { name := "Code Assistant", model := "agent-coder",
      system_prompt := "You are an expert programming assistant. Provide clear, well-documented code with explanations.",
      temperature := 3, max_tokens := 4096,
      description := "Specialized in coding tasks" }),
   ("cloud-fast",
    { name := "Cloud Quick Agent", model := "agent-cloud-fast",
      system_prompt := "You are a helpful AI assistant.",
      temperature := 7, max_tokens := 2048,
      description := "Fast cloud-based responses" }),
   ("cloud-expert",
    { name := "Cloud Expert Agent", model := "agent-cloud-balanced",
      system_prompt := "You are an expert AI assistant with deep knowledge across many domains.",
      temperature := 7, max_tokens := 4096,
      description := "Best quality cloud-based responses" }),
   ("creative",
    { name := "Creative Writer", model := "agent-balanced",
      system_prompt := "You are a creative writing assistant. Help users with stories, poems, and creative content.",
      temperature := 9, max_tokens := 4096,
      description := "Creative and imaginative responses" }),
   ("teacher",
    { name := "Teaching Assistant", model := "agent-cloud-balanced",
      system_prompt := "You are a patient teaching assistant. Explain concepts clearly with examples and analogies.",
      temperature := 6, max_tokens := 3072,
      description := "Educational and explanatory" })]

/-- `DEFAULT_AGENT`. -/
def DEFAULT_AGENT : String := "general"

/-- `get_agent_config(agent_type=None)`: unknown or absent keys fall back to
`DEFAULT_AGENT`.  `AGENTS` always contains `DEFAULT_AGENT`, so the `getD`
fallback record is never consulted. -/
def get_agent_config (agent_type : Option String) : AgentConfig :=
  let t : String :=
    match agent_type with
    | none => DEFAULT_AGENT
    | some s => if (AGENTS.lookup s).isSome then s else DEFAULT_AGENT
  (AGENTS.lookup t).getD
    { name := "General Assistant", model := "agent-balanced",
      system_prompt := "You are a helpful AI assistant.",
      temperature := 7, max_tokens := 2048,
      description := "Balanced model for general conversation" }

end AgentsConfig

namespace ServerLlm

/-- An OpenAI-compatible chat-completion call as sent by `call_litellm`
(system prompt already merged into the message list). -/
structure LLMCall where
  model : String
  messages : List (String × String)
  temperature : Nat
  max_tokens : Nat
deriving DecidableEq, Repr

/-- The LiteLLM client: a call returns the completion content or raises. -/
abbrev LiteProv := LLMCall → Except String String

/-- The `{response, model, backend}` dictionary the helper calls return. -/
structure LLMTriple where
  response : String
  model : String
  backend : String
deriving DecidableEq, Repr

/-- Keyword arguments of a direct `anthropic_client.messages.create` call. -/
structure AnthCall where
  model : String
  max_tokens : Nat
  temperature : Nat
  system : Option String
  messages : List (String × String)
deriving DecidableEq, Repr

/-- A successful direct Anthropic response (joined text, reported model). -/
structure AnthResp where
  text : String
  model : String
deriving DecidableEq, Repr

/-- The direct Anthropic client of `server_llm.py`. -/
abbrev AnthProv := AnthCall → Except String AnthResp

/-- The request `call_litellm` sends: a truthy system prompt is prepended as a
`system` role message. -/
def litellmCallOf (model : String) (messages : List (String × String))
    (system_prompt : Option String) (temperature max_tokens : Nat) : LLMCall :=
  let openai_messages :=
    (match system_prompt with
     | some s => if s ≠ "" then [("system", s)] else []
     | none => []) ++ messages
  { model := model, messages := openai_messages, temperature := temperature,
    max_tokens := max_tokens }

/-- `call_litellm`: on success, reports the requested model and backend
`"litellm"`; a client failure re-raises. -/
def call_litellm (lp : LiteProv) (model : String)
    (messages : List (String × String)) (system_prompt : Option String)
    (temperature max_tokens : Nat) : Except String LLMTriple :=
  match lp (litellmCallOf model messages system_prompt temperature max_tokens) with
  | Except.ok content =>
    Except.ok { response := content, model := model, backend := "litellm" }
  | Except.error e => Except.error e

/-- The request `call_anthropic_direct` sends: a truthy system prompt becomes
the `system` keyword. -/
def anthCallOf (model : String) (max_tokens temperature : Nat)
    (system_prompt : Option String) (messages : List (String × String)) :
    AnthCall :=
  { model := model, max_tokens := max_tokens, temperature := temperature,
    system := match system_prompt with
              | some s => if s ≠ "" then some s else none
              | none => none,
    messages := messages }

/-- `call_anthropic_direct`: on success, reports the backend-returned model and
backend `"anthropic-direct"`; a client failure re-raises. -/
def call_anthropic_direct (ap : AnthProv) (model : String)
    (messages : List (String × String)) (system_prompt : Option String)
    (temperature max_tokens : Nat) : Except String LLMTriple :=
  match ap (anthCallOf model max_tokens temperature system_prompt messages) with
  | Except.ok m =>
    Except.ok { response := m.text, model := m.model, backend := "anthropic-direct" }
  | Except.error e => Except.error e

/-- The prompt template of `create_topic_summary` in `server_llm.py`. -/
def summaryPromptOf (selected_text conversation_context : String) : String :=
  "You are creating a stable summary of a conversation context for a topic thread.\n\nThe user selected this text from the parent conversation:\n\"" ++ selected_text ++ "\"\n\nParent conversation context:\n" ++ conversation_context ++ "\n\nCreate a concise summary (2-3 sentences) that captures the essential context relevant to the selected topic."

/-- `create_topic_summary` of `server_llm.py`: prefers the LiteLLM client with
the model of the `"fast"` persona, else the direct Anthropic client, else `None`;
any raised provider error is caught into `None`. -/
def create_topic_summary (lp : Option LiteProv) (ap : Option AnthProv)
    (parent_messages : List Msg) (selected_text : String) : Option String :=
  if parent_messages = [] then none
  else
    let agent_config := AgentsConfig.get_agent_config (some "fast")
    let conversation_context := pyJoin "\n" (parent_messages.map fmtMsg)
    let summary_prompt := summaryPromptOf selected_text conversation_context
    let messages := [("user", summary_prompt)]
    match lp with
    | some l =>
      (match call_litellm l agent_config.model messages none 5 200 with
       | Except.ok result => some (pyStrip result.response)
       | Except.error _ => none)
    | none =>
      match ap with
      | some a =>
        (match call_anthropic_direct a "claude-3-haiku-20240307" messages none 5 200 with
         | Except.ok result => some (pyStrip result.response)
         | Except.error _ => none)
      | none => none

/-- The JSON body of a `POST /api/chat` request to `server_llm.py` (`agent` is
`none` when the key is absent, so it defaults to `DEFAULT_AGENT`). -/
structure ChatRequest where
  message : String
  contextPack : Option ContextPack
  agent : Option String
deriving Repr

/-- The `response_data` payload of a successful `server_llm.py` chat. -/
structure RespData where
  response : String
  model : String
  backend : String
  agent : String
  topicSummary : Option String
deriving DecidableEq, Repr

/-- The observable outcome of one `server_llm.py` chat request, with a trace of
outgoing calls of the handler: `summaryCalls` counts `create_topic_summary`
invocations; `primaryCalls`, `fallbackCalls` and `directCalls` record the
LiteLLM-primary, Anthropic-fallback and Anthropic-only call sites. -/
structure ChatOut where
  status : Nat
  data : Option RespData
  error : Option String
  summaryCalls : Nat
  primaryCalls : List LLMCall
  fallbackCalls : List AnthCall
  directCalls : List AnthCall
  systemPrompt : String
  effectiveUserMessage : String
deriving Repr

/-- Lines 184-213 of `server_llm.py`: the same context assembly as `server.py`,
over the base system prompt of the persona and the local `create_topic_summary`. -/
def assembleContext (lp : Option LiteProv) (ap : Option AnthProv)
    (context_pack : Option ContextPack) (base_prompt : String)
    (user_message0 : String) : String × String × Nat :=
  match context_pack with
  | some cp =>
    if cp.isTopicThread then
      let selected_text := cp.selectedText
      let parent_messages := cp.parentMessages
      let existing_summary := cp.topicSummary
      let recent_turns := cp.recentTurns
      let step : Option String × Nat :=
        if truthyS existing_summary = false ∧ parent_messages ≠ [] then
          (create_topic_summary lp ap parent_messages selected_text, 1)
        else (existing_summary, 0)
      let topic_summary := step.1
      let context_parts : List String :=
        (if truthyS topic_summary then
          ["Topic Context (Long-term Memory):\n" ++ topic_summary.getD ""]
         else [])
        ++ (if selected_text ≠ "" then
          ["\nThis topic thread was created from this selection:\n\"" ++ selected_text ++ "\""]
         else [])
      let system_prompt :=
        if context_parts ≠ [] then
          base_prompt ++ "\n\n" ++ pyJoin "\n" context_parts
        else base_prompt
      let user_message :=
        if recent_turns ≠ [] then
          let working_memory := (pyEnumFrom 1 recent_turns).foldl
            (fun acc p =>
              acc ++ "\nTurn " ++ toString p.1 ++ ":\nUser: " ++ p.2.user
                ++ "\nAssistant: " ++ p.2.assistant ++ "\n")
            "\n\nRecent conversation (Working Memory):\n"
          working_memory ++ "\nCurrent message:\n" ++ user_message0
        else user_message0
      (system_prompt, user_message, step.2)
    else (base_prompt, user_message0, 0)
  | none => (base_prompt, user_message0, 0)

/-- Lines 262-270 of `server_llm.py`: regenerate a summary for the response
payload when none was supplied. -/
def summaryForResponse (lp : Option LiteProv) (ap : Option AnthProv)
    (context_pack : Option ContextPack) : Option String × Nat :=
  match context_pack with
  | some cp =>
    if cp.isTopicThread then
      if truthyS cp.topicSummary = false ∧ cp.parentMessages ≠ [] then
        let topic_summary := create_topic_summary lp ap cp.parentMessages cp.selectedText
        ((if truthyS topic_summary then topic_summary else none), 1)
      else (none, 0)
    else (none, 0)
  | none => (none, 0)

/-- The tail of a successful `server_llm.py` chat. -/
def chatFinish (lp : Option LiteProv) (ap : Option AnthProv) (data : ChatRequest)
    (agent_type system_prompt user_message : String) (calls1 : Nat)
    (result : LLMTriple) (primaryCalls : List LLMCall)
    (fallbackCalls directCalls : List AnthCall) : ChatOut :=
  let post := summaryForResponse lp ap data.contextPack
  { status := 200,
    data := some { response := result.response, model := result.model,
                   backend := result.backend, agent := agent_type,
                   topicSummary := post.1 },
    error := none,
    summaryCalls := calls1 + post.2,
    primaryCalls := primaryCalls,
    fallbackCalls := fallbackCalls,
    directCalls := directCalls,
    systemPrompt := system_prompt,
    effectiveUserMessage := user_message }

/-- The `POST /api/chat` handler of `server_llm.py`: LiteLLM first; on a raised
LiteLLM error, fall back to direct Anthropic only when that client exists and
the persona model name contains `"claude"` (with the model hard-coded to
`claude-3-haiku-20240307`); a raised fallback or direct-call error escapes to
the generic handler as a 500; with no usable backend, 500
`"No LLM backend available"`. -/
def chat (lp : Option LiteProv) (ap : Option AnthProv) (data : ChatRequest) :
    ChatOut :=
  let user_message := data.message
  let agent_type := data.agent.getD AgentsConfig.DEFAULT_AGENT
  let agent_config := AgentsConfig.get_agent_config (some agent_type)
  if user_message = "" then
    { status := 400, data := none, error := some "No message provided",
      summaryCalls := 0, primaryCalls := [], fallbackCalls := [],
      directCalls := [], systemPrompt := agent_config.system_prompt,
      effectiveUserMessage := user_message }
  else
    let asm := assembleContext lp ap data.contextPack agent_config.system_prompt
      user_message
    let system_prompt := asm.1
    let user_message := asm.2.1
    let calls1 := asm.2.2
    let messages : List (String × String) := [("user", user_message)]
    match lp with
    | some l =>
      let c := litellmCallOf agent_config.model messages (some system_prompt)
        agent_config.temperature agent_config.max_tokens
      (match call_litellm l agent_config.model messages (some system_prompt)
          agent_config.temperature agent_config.max_tokens with
       | Except.ok result =>
         chatFinish lp ap data agent_type system_prompt user_message calls1
           result [c] [] []
       | Except.error _ =>
         match ap with
         | some a =>
           if "claude".data <:+: agent_config.model.data then
             let fc := anthCallOf "claude-3-haiku-20240307"
               agent_config.max_tokens agent_config.temperature
               (some system_prompt) messages
             (match call_anthropic_direct a "claude-3-haiku-20240307" messages
                 (some system_prompt) agent_config.temperature
                 agent_config.max_tokens with
              | Except.ok result =>
                chatFinish lp ap data agent_type system_prompt user_message
                  calls1 result [c] [fc] []
              | Except.error e2 =>
                { status := 500, data := none, error := some e2,
                  summaryCalls := calls1, primaryCalls := [c],
                  fallbackCalls := [fc], directCalls := [],
                  systemPrompt := system_prompt,
                  effectiveUserMessage := user_message })
           else
             { status := 500, data := none,
               error := some "No LLM backend available",
               summaryCalls := calls1, primaryCalls := [c],
               fallbackCalls := [], directCalls := [],
               systemPrompt := system_prompt,
               effectiveUserMessage := user_message }
         | none =>
           { status := 500, data := none,
             error := some "No LLM backend available",
             summaryCalls := calls1, primaryCalls := [c], fallbackCalls := [],
             directCalls := [], systemPrompt := system_prompt,
             effectiveUserMessage := user_message })
    | none =>
      match ap with
      | some a =>
        let dc := anthCallOf "claude-3-haiku-20240307" agent_config.max_tokens
          agent_config.temperature (some system_prompt) messages
        (match call_anthropic_direct a "claude-3-haiku-20240307" messages
            (some system_prompt) agent_config.temperature
            agent_config.max_tokens with
         | Except.ok result =>
           chatFinish lp ap data agent_type system_prompt user_message calls1
             result [] [] [dc]
         | Except.error e =>
           { status := 500, data := none, error := some e,
             summaryCalls := calls1, primaryCalls := [], fallbackCalls := [],
             directCalls := [dc], systemPrompt := system_prompt,
             effectiveUserMessage := user_message })
      | none =>
        { status := 500, data := none, error := some "No LLM backend available",
          summaryCalls := calls1, primaryCalls := [], fallbackCalls := [],
          directCalls := [], systemPrompt := system_prompt,
          effectiveUserMessage := user_message }

end ServerLlm

/-! ## Shared lemmas -/

theorem truthyS_some_of_ne {s : String} (h : s ≠ "") : truthyS (some s) = true := by
  simp [truthyS, h]

theorem map_filter_comm {α β : Type} (f : α → β) (p : β → Bool) :
    ∀ l : List α, (l.map f).filter p = (l.filter (fun x => p (f x))).map f := by
  intro l
  induction l with
  | nil => rfl
  | cons a l ih =>
    cases h : p (f a) <;> simp [List.filter_cons, h, ih]

theorem pyEnumFrom_length {α : Type} : ∀ (i : Nat) (l : List α),
    (pyEnumFrom i l).length = l.length := by
  intro i l
  induction l generalizing i with
  | nil => rfl
  | cons a l ih => simp [pyEnumFrom, ih]

/-! ## Claim theorems -/

/-- Claim C6: the brainstorming parser splits the backend text into lines,
strips each line, discards blank and near-empty (at most 3 characters after
stripping) lines, and caps the result at 3 entries; on a 5-line response with
one blank line and one 2-character line the result is exactly the 3 remaining
stripped lines, and an all-valid 5-line response is capped at 3 entries. -/
theorem parseIdeas_spec :
    (∀ text : String,
      Server.parseIdeas text =
        (((pySplitLines (pyStrip text)).map pyStrip).filter
            (fun l => decide (l ≠ "") && decide (3 < l.length))).take 3)
    ∧ Server.parseIdeas "Idea one here\n\n  Future of computing  \nok\nAnother great idea"
        = ["Idea one here", "Future of computing", "Another great idea"]
    ∧ Server.parseIdeas "First idea line\nSecond idea line\nThird idea line\nFourth idea line\nFifth idea line"
        = ["First idea line", "Second idea line", "Third idea line"] := by
  refine ⟨fun text => ?_, by decide, by decide⟩
  unfold Server.parseIdeas
  rw [map_filter_comm]

/-- Claim C9: a chat request whose body lacks the `message` field (so the
default `""` is extracted) is answered with status 400 by both
servers, with no completion, summary, Gemini or agent-executor call and no
response payload. -/
theorem missing_message_is_rejected :
    (∀ (prov : Server.ClaudeProv) (gemini : Option (String → Except String String))
       (timeoutOf : String → Option String) (req : Server.ChatRequest),
       req.message = "" →
       (Server.chat prov gemini timeoutOf req).status = 400
       ∧ (Server.chat prov gemini timeoutOf req).summaryCalls = 0
       ∧ (Server.chat prov gemini timeoutOf req).primaryCalls = []
       ∧ (Server.chat prov gemini timeoutOf req).geminiCalls = []
       ∧ (Server.chat prov gemini timeoutOf req).runAgentsCalls = 0
       ∧ (Server.chat prov gemini timeoutOf req).data = none)
    ∧ (∀ (lp : Option ServerLlm.LiteProv) (ap : Option ServerLlm.AnthProv)
         (req : ServerLlm.ChatRequest),
         req.message = "" →
         (ServerLlm.chat lp ap req).status = 400
         ∧ (ServerLlm.chat lp ap req).summaryCalls = 0
         ∧ (ServerLlm.chat lp ap req).primaryCalls = []
         ∧ (ServerLlm.chat lp ap req).fallbackCalls = []
         ∧ (ServerLlm.chat lp ap req).directCalls = []
         ∧ (ServerLlm.chat lp ap req).data = none) := by
  constructor
  · intro prov gemini timeoutOf req h
    simp [Server.chat, h]
  · intro lp ap req h
    simp [ServerLlm.chat, h]

/-- Claim C9 witness: a concrete empty-message request is rejected by both
servers without any backend activity. -/
theorem missing_message_is_rejected_witness :
    ((Server.chat (fun _ => Except.error "unused") none (fun _ => none)
        { message := "", contextPack := none, enabledAgents := none,
          modelProvider := "claude", conversationMessages := [] }).status = 400
      ∧ (ServerLlm.chat none none
          { message := "", contextPack := none, agent := none }).status = 400) :=
  ⟨(missing_message_is_rejected.1 (fun _ => Except.error "unused") none
      (fun _ => none) _ rfl).1,
   (missing_message_is_rejected.2 none none _ rfl).1⟩

/-- Claim C10: `get_agent_config` maps an absent (`None`) or unknown agent key
to the registered `DEFAULT_AGENT` (`"general"`) persona — the lookup of the
default key in `AGENTS` yields exactly the returned configuration, so persona
selection never fails. -/
theorem get_agent_config_default (a : Option String)
    (h : a = none ∨ ∀ s, a = some s → AgentsConfig.AGENTS.lookup s = none) :
    AgentsConfig.AGENTS.lookup AgentsConfig.DEFAULT_AGENT
      = some (AgentsConfig.get_agent_config a) := by
  cases a with
  | none => decide
  | some s =>
    rcases h with h | h
    · exact absurd h (by simp)
    · have hl : AgentsConfig.AGENTS.lookup s = none := h s rfl
      simp only [AgentsConfig.get_agent_config, hl, Option.isSome_none,
        Bool.false_eq_true, if_false]
      decide

/-- Claim C10 witness: both an absent agent key and a concrete unknown one
resolve to the registered default persona. -/
theorem get_agent_config_default_witness :
    AgentsConfig.AGENTS.lookup AgentsConfig.DEFAULT_AGENT
        = some (AgentsConfig.get_agent_config (some "nonexistent")) :=
  get_agent_config_default (some "nonexistent")
    (Or.inr (fun s hs => by cases hs; decide))

/-! ## Structure of `run_agents` -/

theorem partition_foldl_eq : ∀ (L p s : List String),
    L.foldl
      (fun (acc : List String × List String) agent_type =>
        match Server.AgentRegistry.get_agent_config agent_type with
        | some config =>
          if config.enabled then
            if config.execution == "parallel" then (acc.1 ++ [agent_type], acc.2)
            else (acc.1, acc.2 ++ [agent_type])
          else acc
        | none => acc)
      (p, s)
    = (p ++ L.filter (fun t => t == "brainstorming"), s) := by
  intro L
  induction L with
  | nil => intro p s; simp
  | cons t ts ih =>
    intro p s
    cases h : t == "brainstorming" with
    | true =>
      have ht : t = "brainstorming" := eq_of_beq h
      subst ht
      simp only [List.foldl_cons, List.filter_cons, h, if_true]
      rw [show (Server.AgentRegistry.get_agent_config "brainstorming") =
        some { name := "Brainstorming Agent", model := "claude-3-haiku-20240307",
               max_tokens := 300, temperature := 9, enabled := true,
               execution := "parallel",
               description := "Generates creative topic ideas from conversations" } from rfl]
      simp only [if_true]
      rw [ih]
      simp
    | false =>
      have hc : Server.AgentRegistry.get_agent_config t = none := by
        simp [Server.AgentRegistry.get_agent_config, List.lookup, h]
      simp only [List.foldl_cons, List.filter_cons, h, hc]
      exact ih p s

theorem futures_foldl_stay (v : Server.AgentResult) : ∀ (M : List String),
    (∀ t ∈ M, t = "brainstorming") →
    M.foldl
      (fun (fs : List (String × Server.AgentResult)) agent_type =>
        if agent_type == "brainstorming" then pyDictInsert fs agent_type v else fs)
      [("brainstorming", v)]
    = [("brainstorming", v)] := by
  intro M
  induction M with
  | nil => intro _; rfl
  | cons t ts ih =>
    intro hall
    have ht : t = "brainstorming" := hall t (List.mem_cons_self t ts)
    subst ht
    simp only [List.foldl_cons]
    rw [show pyDictInsert [("brainstorming", v)] "brainstorming" v
        = [("brainstorming", v)] from by simp [pyDictInsert]]
    · exact ih (fun t ht => hall t (List.mem_cons_of_mem _ ht))

theorem futures_foldl_eq (v : Server.AgentResult) : ∀ (M : List String),
    (∀ t ∈ M, t = "brainstorming") →
    M.foldl
      (fun (fs : List (String × Server.AgentResult)) agent_type =>
        if agent_type == "brainstorming" then pyDictInsert fs agent_type v else fs)
      []
    = if M = [] then [] else [("brainstorming", v)] := by
  intro M hall
  cases M with
  | nil => rfl
  | cons t ts =>
    have ht : t = "brainstorming" := hall t (List.mem_cons_self t ts)
    subst ht
    simp only [List.foldl_cons]
    rw [show (if (("brainstorming" : String) == "brainstorming") = true then
          pyDictInsert ([] : List (String × Server.AgentResult)) "brainstorming" v
        else []) = [("brainstorming", v)] from rfl]
    rw [futures_foldl_stay v ts (fun t ht => hall t (List.mem_cons_of_mem _ ht))]
    simp

theorem run_agents_eq (prov : Server.ClaudeProv)
    (timeoutOf : String → Option String) (msgs : List Msg)
    (ctx : Option ContextPack) (requested : Option (List String)) :
    Server.AgentExecutor.run_agents prov timeoutOf msgs ctx requested =
    if "brainstorming" ∈ requested.getD Server.AgentRegistry.get_enabled_agents then
      [("brainstorming",
        match timeoutOf "brainstorming" with
        | none => Server.AgentExecutor.execute_brainstorming_agent prov msgs ctx
        | some e =>
          { success := false, ideas := none, error := some e,
            agent := "brainstorming" })]
    else [] := by
  simp only [Server.AgentExecutor.run_agents]
  rw [partition_foldl_eq]
  dsimp only
  simp only [List.nil_append]
  set L := requested.getD Server.AgentRegistry.get_enabled_agents with hL
  have hall : ∀ t ∈ L.filter (fun t => t == "brainstorming"), t = "brainstorming" :=
    fun t ht => eq_of_beq (List.mem_filter.mp ht).2
  rw [futures_foldl_eq _ _ hall]
  by_cases hmem : "brainstorming" ∈ L
  · have hne : L.filter (fun t => t == "brainstorming") ≠ [] := by
      intro hnil
      have := (List.filter_eq_nil_iff.mp hnil) "brainstorming" hmem
      simp at this
    rw [if_neg hne, if_pos hmem]
    cases h : timeoutOf "brainstorming" <;>
      simp [h, pyDictInsert]
  · have hnil : L.filter (fun t => t == "brainstorming") = [] := by
      rw [List.filter_eq_nil_iff]
      intro a ha hba
      exact hmem (eq_of_beq hba ▸ ha)
    rw [if_pos hnil, if_neg hmem]
    rfl

theorem enabled_filter_eq (t : String) :
    ((Server.AgentRegistry.get_agent_config t).map (fun c => c.enabled)).getD false
      = (t == "brainstorming") := by
  cases h : t == "brainstorming" with
  | true =>
    have ht : t = "brainstorming" := eq_of_beq h
    subst ht
    rfl
  | false =>
    simp [Server.AgentRegistry.get_agent_config, List.lookup, h]

/-- Claim C3: the mapping returned by `run_agents` has an entry exactly for
every agent of the working set — the requested agent ids (defaulting to the
enabled list of the registry) restricted to enabled registry definitions —
each entry being the settled result of that agent; sequential agents do not exist
in the registry, so the working set carries none and the property covers it
vacuously. -/
theorem run_agents_covers_working_set (prov : Server.ClaudeProv)
    (timeoutOf : String → Option String) (msgs : List Msg)
    (ctx : Option ContextPack) (requested : Option (List String)) (a : String) :
    ((Server.AgentExecutor.run_agents prov timeoutOf msgs ctx requested).lookup a).isSome = true ↔
    a ∈ (requested.getD Server.AgentRegistry.get_enabled_agents).filter
        (fun t => ((Server.AgentRegistry.get_agent_config t).map (fun c => c.enabled)).getD false) := by
  rw [run_agents_eq]
  rw [List.filter_congr (fun t _ => enabled_filter_eq t)]
  constructor
  · intro h
    by_cases hmem : "brainstorming" ∈ requested.getD Server.AgentRegistry.get_enabled_agents
    · rw [if_pos hmem] at h
      cases hab : a == "brainstorming" with
      | true =>
        have ha : a = "brainstorming" := eq_of_beq hab
        subst ha
        exact List.mem_filter.mpr ⟨hmem, by simp⟩
      | false =>
        rw [List.lookup] at h
        rw [hab] at h
        simp [List.lookup] at h
    · rw [if_neg hmem] at h
      simp [List.lookup] at h
  · intro h
    have hmemf := List.mem_filter.mp h
    have ha : a = "brainstorming" := eq_of_beq hmemf.2
    subst ha
    rw [if_pos hmemf.1]
    rw [List.lookup]
    simp

/-- Claim C3 witness: with the default working set and a settled future, the
returned mapping has an entry for the (only) working-set agent. -/
theorem run_agents_covers_working_set_witness :
    ((Server.AgentExecutor.run_agents
        (fun _ => Except.ok { text := "aaaaa", model := "m" }) (fun _ => none)
        [{ sender := "user", text := "hello" }] none none).lookup
      "brainstorming").isSome = true :=
  (run_agents_covers_working_set _ _ _ _ _ _).mpr (by decide)

/-- Claim C5: a parallel agent that times out gets the failure record
a failure record with `success := false` and the reason as its entry; the
entry of any agent depends only on its own timeout outcome (so entries of
all other agents are identical to the
no-failure run); a provider exception inside the brainstorming agent is
caught into a failure record; and the chat request still returns 200 whenever
the primary completion succeeds, regardless of agent outcomes. -/
theorem agent_isolation_props :
    (∀ (prov : Server.ClaudeProv) (timeoutOf : String → Option String)
       (msgs : List Msg) (ctx : Option ContextPack)
       (requested : Option (List String)) (a e : String),
       a ∈ (requested.getD Server.AgentRegistry.get_enabled_agents).filter
           (fun t => ((Server.AgentRegistry.get_agent_config t).map
             (fun c => c.enabled)).getD false) →
       timeoutOf a = some e →
       (Server.AgentExecutor.run_agents prov timeoutOf msgs ctx requested).lookup a
         = some { success := false, ideas := none, error := some e, agent := a })
    ∧ (∀ (prov : Server.ClaudeProv) (t1 t2 : String → Option String)
         (msgs : List Msg) (ctx : Option ContextPack)
         (requested : Option (List String)) (b : String),
         t1 b = t2 b →
         (Server.AgentExecutor.run_agents prov t1 msgs ctx requested).lookup b
           = (Server.AgentExecutor.run_agents prov t2 msgs ctx requested).lookup b)
    ∧ (∀ (prov : Server.ClaudeProv) (msgs : List Msg) (ctx : Option ContextPack)
         (e : String),
         prov { model := "claude-3-haiku-20240307", max_tokens := 300,
                temperature := some 9, system := none,
                messages := [("user", Server.brainstormingPrompt msgs)] }
           = Except.error e →
         Server.AgentExecutor.execute_brainstorming_agent prov msgs ctx
           = { success := false, ideas := some [], error := some e,
               agent := "brainstorming" })
    ∧ (∀ (prov : Server.ClaudeProv)
         (gemini : Option (String → Except String String))
         (timeoutOf : String → Option String) (req : Server.ChatRequest)
         (r : Server.ClaudeResp),
         req.message ≠ "" → req.modelProvider ≠ "gemini" →
         (∀ c, c.max_tokens = 2048 → prov c = Except.ok r) →
         (Server.chat prov gemini timeoutOf req).status = 200) := by
  refine ⟨?_, ?_, ?_, ?_⟩
  · intro prov timeoutOf msgs ctx requested a e hmem hto
    rw [List.filter_congr (fun t _ => enabled_filter_eq t)] at hmem
    have hf := List.mem_filter.mp hmem
    have ha : a = "brainstorming" := eq_of_beq hf.2
    subst ha
    rw [run_agents_eq, if_pos hf.1, hto]
    simp [List.lookup]
  · intro prov t1 t2 msgs ctx requested b h
    rw [run_agents_eq, run_agents_eq]
    by_cases hmem : "brainstorming" ∈ requested.getD Server.AgentRegistry.get_enabled_agents
    · rw [if_pos hmem, if_pos hmem]
      cases hb : b == "brainstorming" with
      | true =>
        have hbb : b = "brainstorming" := eq_of_beq hb
        subst hbb
        simp only [List.lookup, beq_self_eq_true, h]
      | false =>
        simp [List.lookup, hb]
    · rw [if_neg hmem, if_neg hmem]
  · intro prov msgs ctx e hb
    simp only [Server.AgentExecutor.execute_brainstorming_agent,
      Server.AgentRegistry.get_agent_config, List.lookup, beq_self_eq_true,
      Option.getD_some]
    rw [hb]
  · intro prov gemini timeoutOf req r hmsg hp hprim
    simp only [Server.chat]
    rw [if_neg hmsg]
    rw [if_neg (by simp [hp] : ¬ ((req.modelProvider == "gemini") = true))]
    rw [hprim _ rfl]
    simp [Server.chatFinish]

/-- Claim C5 witness: concrete instances of each isolation property — a timed
out failure entry of an agent, independence of another run with the same timeout
outcome, a caught provider exception, and a 200 despite an agent timeout. -/
theorem agent_isolation_props_witness :
    ((Server.AgentExecutor.run_agents (fun _ => Except.ok { text := "aaaaa", model := "m" })
        (fun _ => some "timed out") [{ sender := "user", text := "hello" }] none none).lookup
        "brainstorming"
      = some { success := false, ideas := none, error := some "timed out",
               agent := "brainstorming" })
    ∧ ((Server.AgentExecutor.run_agents (fun _ => Except.ok { text := "aaaaa", model := "m" })
          (fun _ => some "timed out") [{ sender := "user", text := "hello" }] none none).lookup
          "brainstorming"
        = (Server.AgentExecutor.run_agents (fun _ => Except.ok { text := "aaaaa", model := "m" })
            (fun _ => some "timed out") [{ sender := "user", text := "hello" }] none none).lookup
            "brainstorming")
    ∧ (Server.AgentExecutor.execute_brainstorming_agent (fun _ => Except.error "boom") [] none
        = { success := false, ideas := some [], error := some "boom",
            agent := "brainstorming" })
    ∧ (Server.chat (fun _ => Except.ok { text := "ok", model := "m" }) none
        (fun _ => some "timed out")
        { message := "hi", contextPack := none, enabledAgents := none,
          modelProvider := "claude",
          conversationMessages := [{ sender := "user", text := "hello" }] }).status = 200 :=
  ⟨agent_isolation_props.1 _ _ _ none none "brainstorming" "timed out" (by decide) rfl,
   agent_isolation_props.2.1 _ _ _ _ none none "brainstorming" rfl,
   agent_isolation_props.2.2.1 _ [] none "boom" rfl,
   agent_isolation_props.2.2.2 _ none _ _ { text := "ok", model := "m" }
     (by decide) (by decide) (fun _ _ => rfl)⟩

/-! ## Context assembly lemmas -/

theorem wmFold_eq (ts : List Turn) : ∀ (i : Nat) (acc : String),
    (pyEnumFrom i ts).foldl
      (fun acc p => acc ++ "\nTurn " ++ toString p.1 ++ ":\nUser: " ++ p.2.user
        ++ "\nAssistant: " ++ p.2.assistant ++ "\n") acc
    = acc ++ concatStr ((pyEnumFrom i ts).map
        (fun p => "\nTurn " ++ toString p.1 ++ ":\nUser: " ++ p.2.user
          ++ "\nAssistant: " ++ p.2.assistant ++ "\n")) := by
  induction ts with
  | nil => intro i acc; simp [pyEnumFrom, concatStr, String.append_empty]
  | cons t ts ih =>
    intro i acc
    simp only [pyEnumFrom, List.foldl_cons, List.map_cons, concatStr]
    rw [ih]
    simp [String.append_assoc]

theorem assembleContext_um (prov : Server.ClaudeProv) (cp : ContextPack)
    (u : String) (htt : cp.isTopicThread = true) (hrt : cp.recentTurns ≠ []) :
    (Server.assembleContext prov (some cp) u).2.1
      = "\n\nRecent conversation (Working Memory):\n"
        ++ concatStr ((pyEnumFrom 1 cp.recentTurns).map
            (fun p => "\nTurn " ++ toString p.1 ++ ":\nUser: " ++ p.2.user
              ++ "\nAssistant: " ++ p.2.assistant ++ "\n"))
        ++ ("\nCurrent message:\n" ++ u) := by
  simp only [Server.assembleContext, htt, if_true]
  rw [if_pos hrt, wmFold_eq]
  simp [String.append_assoc]

theorem llm_assembleContext_um (lp : Option ServerLlm.LiteProv)
    (ap : Option ServerLlm.AnthProv) (cp : ContextPack) (base u : String)
    (htt : cp.isTopicThread = true) (hrt : cp.recentTurns ≠ []) :
    (ServerLlm.assembleContext lp ap (some cp) base u).2.1
      = "\n\nRecent conversation (Working Memory):\n"
        ++ concatStr ((pyEnumFrom 1 cp.recentTurns).map
            (fun p => "\nTurn " ++ toString p.1 ++ ":\nUser: " ++ p.2.user
              ++ "\nAssistant: " ++ p.2.assistant ++ "\n"))
        ++ ("\nCurrent message:\n" ++ u) := by
  simp only [ServerLlm.assembleContext, htt, if_true]
  rw [if_pos hrt, wmFold_eq]
  simp [String.append_assoc]

theorem assembleContext_calls_of_truthy (prov : Server.ClaudeProv)
    (cp : ContextPack) (u : String) (htr : truthyS cp.topicSummary = true) :
    (Server.assembleContext prov (some cp) u).2.2 = 0 := by
  cases hb : cp.isTopicThread <;> simp [Server.assembleContext, hb, htr]

theorem assembleContext_sys_of_existing (prov : Server.ClaudeProv)
    (cp : ContextPack) (u s : String) (htt : cp.isTopicThread = true)
    (hsum : cp.topicSummary = some s) (hs : s ≠ "") :
    (Server.assembleContext prov (some cp) u).1
      = Server.baseSystemPrompt ++ "\n\n" ++ pyJoin "\n"
          (["Topic Context (Long-term Memory):\n" ++ s]
           ++ (if cp.selectedText ≠ "" then
                ["\nThis topic thread was created from this selection:\n\""
                  ++ cp.selectedText ++ "\""]
              else [])) := by
  have htr : truthyS cp.topicSummary = true := by
    rw [hsum]; exact truthyS_some_of_ne hs
  simp [Server.assembleContext, htt, hsum, htr, truthyS_some_of_ne hs]

theorem summaryForResponse_of_truthy (prov : Server.ClaudeProv)
    (cp : ContextPack) (htr : truthyS cp.topicSummary = true) :
    Server.summaryForResponse prov (some cp) = (none, 0) := by
  cases hb : cp.isTopicThread <;> simp [Server.summaryForResponse, hb, htr]

theorem chat_trace_fields (prov : Server.ClaudeProv)
    (gemini : Option (String → Except String String))
    (timeoutOf : String → Option String) (req : Server.ChatRequest)
    (h : req.message ≠ "") :
    (Server.chat prov gemini timeoutOf req).systemPrompt
      = (Server.assembleContext prov req.contextPack req.message).1
    ∧ (Server.chat prov gemini timeoutOf req).effectiveUserMessage
      = (Server.assembleContext prov req.contextPack req.message).2.1
    ∧ ((Server.chat prov gemini timeoutOf req).summaryCalls
        = (Server.assembleContext prov req.contextPack req.message).2.2
          + (Server.summaryForResponse prov req.contextPack).2
      ∨ (Server.chat prov gemini timeoutOf req).summaryCalls
        = (Server.assembleContext prov req.contextPack req.message).2.2)
    ∧ (∀ d, (Server.chat prov gemini timeoutOf req).data = some d →
        d.topicSummary = (Server.summaryForResponse prov req.contextPack).1) := by
  simp only [Server.chat]
  rw [if_neg h]
  split
  · split
    · exact ⟨rfl, rfl, Or.inr rfl, fun d hd => by simp at hd⟩
    · split
      · exact ⟨rfl, rfl, Or.inr rfl, fun d hd => by simp at hd⟩
      · refine ⟨rfl, rfl, Or.inl rfl, ?_⟩
        intro d hd
        simp only [Server.chatFinish, Option.some.injEq] at hd
        rw [← hd]
  · split
    · exact ⟨rfl, rfl, Or.inr rfl, fun d hd => by simp at hd⟩
    · refine ⟨rfl, rfl, Or.inl rfl, ?_⟩
      intro d hd
      simp only [Server.chatFinish, Option.some.injEq] at hd
      rw [← hd]

theorem create_topic_summary_none_of_fail (prov : Server.ClaudeProv)
    (parent : List Msg) (sel e : String)
    (h : prov
      { model := "claude-3-haiku-20240307", max_tokens := 200,
        temperature := none, system := none,
        messages := [("user", Server.summaryPromptOf sel
          (pyJoin "\n" (parent.map fmtMsg)))] } = Except.error e) :
    Server.create_topic_summary prov parent sel = none := by
  simp only [Server.create_topic_summary]
  split
  · rfl
  · rw [h]

theorem summaryForResponse_fst_of_fail (prov : Server.ClaudeProv)
    (cpOpt : Option ContextPack) (e : String)
    (hfail : ∀ c, c.max_tokens = 200 → prov c = Except.error e) :
    (Server.summaryForResponse prov cpOpt).1 = none := by
  cases cpOpt with
  | none => rfl
  | some cp =>
    cases hb : cp.isTopicThread with
    | false => simp [Server.summaryForResponse, hb]
    | true =>
      by_cases hcond : truthyS cp.topicSummary = false ∧ cp.parentMessages ≠ []
      · have hnone : Server.create_topic_summary prov cp.parentMessages cp.selectedText = none :=
          create_topic_summary_none_of_fail prov _ _ e (hfail _ rfl)
        simp [Server.summaryForResponse, hb, hcond, hnone]
      · simp [Server.summaryForResponse, hb, hcond]

theorem chat_status_200 (prov : Server.ClaudeProv)
    (gemini : Option (String → Except String String))
    (timeoutOf : String → Option String) (req : Server.ChatRequest)
    (r : Server.ClaudeResp) (hmsg : req.message ≠ "")
    (hp : req.modelProvider ≠ "gemini")
    (hprim : ∀ c, c.max_tokens = 2048 → prov c = Except.ok r) :
    (Server.chat prov gemini timeoutOf req).status = 200 := by
  simp only [Server.chat]
  rw [if_neg hmsg]
  rw [if_neg (by simp [hp] : ¬ ((req.modelProvider == "gemini") = true))]
  rw [hprim _ rfl]
  simp [Server.chatFinish]

theorem llm_chat_um_field (lp : Option ServerLlm.LiteProv)
    (ap : Option ServerLlm.AnthProv) (req : ServerLlm.ChatRequest)
    (h : req.message ≠ "") :
    (ServerLlm.chat lp ap req).effectiveUserMessage
      = (ServerLlm.assembleContext lp ap req.contextPack
          (AgentsConfig.get_agent_config
            (some (req.agent.getD AgentsConfig.DEFAULT_AGENT))).system_prompt
          req.message).2.1 := by
  simp only [ServerLlm.chat]
  rw [if_neg h]
  split
  · split
    · rfl
    · split
      · split
        · split
          · rfl
          · rfl
        · rfl
      · rfl
  · split
    · split
      · rfl
      · rfl
    · rfl

/-- Claim C4 counterexample: the claim fails for a ContextPack whose
`topicSummary` field is set to the empty string — the handler treats it as
absent and regenerates (twice), instead of never invoking the summary
service. -/
theorem chat_regenerates_empty_summary :
    (Server.chat (fun _p => Except.ok { text := "S.", model := "m" }) none
      (fun _a => none)
      { message := "hi",
        contextPack := some
          { isTopicThread := true, selectedText := "sel",
            parentMessages := [{ sender := "user", text := "m1" }],
            topicSummary := some "", recentTurns := [] },
        enabledAgents := none, modelProvider := "claude",
        conversationMessages := [] }).summaryCalls = 2 := rfl

/-- Claim C4 (amended): for a topic-thread ContextPack whose `topicSummary` is
set to a non-empty string, the handler never invokes the summary service, the
given summary appears verbatim inside the assembled system prompt, and the
response payload has no `topicSummary` field. -/
theorem chat_reuses_nonempty_summary (prov : Server.ClaudeProv)
    (gemini : Option (String → Except String String))
    (timeoutOf : String → Option String) (req : Server.ChatRequest)
    (cp : ContextPack) (s : String) (hcp : req.contextPack = some cp)
    (htt : cp.isTopicThread = true) (hsum : cp.topicSummary = some s)
    (hs : s ≠ "") (hmsg : req.message ≠ "") :
    (Server.chat prov gemini timeoutOf req).summaryCalls = 0
    ∧ (∃ pre post,
        (Server.chat prov gemini timeoutOf req).systemPrompt = pre ++ s ++ post)
    ∧ (∀ d, (Server.chat prov gemini timeoutOf req).data = some d →
        d.topicSummary = none) := by
  have htr : truthyS cp.topicSummary = true := by
    rw [hsum]; exact truthyS_some_of_ne hs
  obtain ⟨h1, _h2, h3, h4⟩ := chat_trace_fields prov gemini timeoutOf req hmsg
  have hc : (Server.assembleContext prov req.contextPack req.message).2.2 = 0 := by
    rw [hcp]; exact assembleContext_calls_of_truthy prov cp req.message htr
  have hpost : Server.summaryForResponse prov req.contextPack = (none, 0) := by
    rw [hcp]; exact summaryForResponse_of_truthy prov cp htr
  refine ⟨?_, ?_, ?_⟩
  · rcases h3 with h3 | h3
    · rw [h3, hc, hpost]
      rfl
    · rw [h3, hc]
  · rw [h1, hcp, assembleContext_sys_of_existing prov cp req.message s htt hsum hs]
    by_cases hsel : cp.selectedText ≠ ""
    · rw [if_pos hsel]
      refine ⟨Server.baseSystemPrompt ++ "\n\n"
          ++ "Topic Context (Long-term Memory):\n",
        "\n" ++ ("\nThis topic thread was created from this selection:\n\""
          ++ cp.selectedText ++ "\""), ?_⟩
      simp only [List.cons_append, List.nil_append, pyJoin, String.append_assoc]
    · rw [if_neg hsel]
      refine ⟨Server.baseSystemPrompt ++ "\n\n"
          ++ "Topic Context (Long-term Memory):\n", "", ?_⟩
      simp only [List.append_nil, pyJoin, String.append_empty, String.append_assoc]
  · intro d hd
    rw [h4 d hd, hpost]

/-- Claim C4 witness: a concrete topic-thread request carrying the non-empty
summary "old summary" makes no summary call, embeds it in the system prompt,
and returns no `topicSummary` field. -/
theorem chat_reuses_nonempty_summary_witness :
    (Server.chat (fun _p => Except.ok { text := "S.", model := "m" }) none
        (fun _a => none)
        { message := "hi",
          contextPack := some
            { isTopicThread := true, selectedText := "sel",
              parentMessages := [{ sender := "user", text := "m1" }],
              topicSummary := some "old summary", recentTurns := [] },
          enabledAgents := none, modelProvider := "claude",
          conversationMessages := [] }).summaryCalls = 0
    ∧ (∃ pre post,
        (Server.chat (fun _p => Except.ok { text := "S.", model := "m" }) none
          (fun _a => none)
          { message := "hi",
            contextPack := some
              { isTopicThread := true, selectedText := "sel",
                parentMessages := [{ sender := "user", text := "m1" }],
                topicSummary := some "old summary", recentTurns := [] },
            enabledAgents := none, modelProvider := "claude",
            conversationMessages := [] }).systemPrompt
          = pre ++ "old summary" ++ post) :=
  ⟨(chat_reuses_nonempty_summary _ _ _ _ _ _ rfl rfl rfl (by decide) (by decide)).1,
   (chat_reuses_nonempty_summary _ _ _ _ _ _ rfl rfl rfl (by decide) (by decide)).2.1⟩

/-- Claim C7: on a topic-thread request with non-empty `recentTurns`, the
effective user message sent onward is the working-memory header, one rendered
`User:`/`Assistant:` pair per turn numbered from 1 in input order, the literal
current-message marker, and the original message unchanged; the rendered block
has exactly `len(recentTurns)` turns; and the `server_llm.py` handler renders
identically. -/
theorem working_memory_rendering (prov : Server.ClaudeProv)
    (gemini : Option (String → Except String String))
    (timeoutOf : String → Option String) (req : Server.ChatRequest)
    (cp : ContextPack) (hcp : req.contextPack = some cp)
    (htt : cp.isTopicThread = true) (hrt : cp.recentTurns ≠ [])
    (hmsg : req.message ≠ "") :
    (Server.chat prov gemini timeoutOf req).effectiveUserMessage
      = "\n\nRecent conversation (Working Memory):\n"
        ++ concatStr ((pyEnumFrom 1 cp.recentTurns).map
            (fun p => "\nTurn " ++ toString p.1 ++ ":\nUser: " ++ p.2.user
              ++ "\nAssistant: " ++ p.2.assistant ++ "\n"))
        ++ ("\nCurrent message:\n" ++ req.message)
    ∧ ((pyEnumFrom 1 cp.recentTurns).map
        (fun p => "\nTurn " ++ toString p.1 ++ ":\nUser: " ++ p.2.user
          ++ "\nAssistant: " ++ p.2.assistant ++ "\n")).length
        = cp.recentTurns.length
    ∧ (∀ (lp : Option ServerLlm.LiteProv) (ap : Option ServerLlm.AnthProv)
         (req2 : ServerLlm.ChatRequest) (cp2 : ContextPack),
         req2.contextPack = some cp2 → cp2.isTopicThread = true →
         cp2.recentTurns ≠ [] → req2.message ≠ "" →
         (ServerLlm.chat lp ap req2).effectiveUserMessage
           = "\n\nRecent conversation (Working Memory):\n"
             ++ concatStr ((pyEnumFrom 1 cp2.recentTurns).map
                 (fun p => "\nTurn " ++ toString p.1 ++ ":\nUser: " ++ p.2.user
                   ++ "\nAssistant: " ++ p.2.assistant ++ "\n"))
             ++ ("\nCurrent message:\n" ++ req2.message)) := by
  refine ⟨?_, ?_, ?_⟩
  · rw [(chat_trace_fields prov gemini timeoutOf req hmsg).2.1, hcp,
      assembleContext_um prov cp req.message htt hrt]
  · simp [pyEnumFrom_length]
  · intro lp ap req2 cp2 hcp2 htt2 hrt2 hmsg2
    rw [llm_chat_um_field lp ap req2 hmsg2, hcp2,
      llm_assembleContext_um lp ap cp2 _ req2.message htt2 hrt2]

/-- Claim C7 witness: one concrete turn renders as the literal working-memory
block followed by the marker and the original message. -/
theorem working_memory_rendering_witness :
    (Server.chat (fun _p => Except.ok { text := "S.", model := "m" }) none
        (fun _a => none)
        { message := "hi",
          contextPack := some
            { isTopicThread := true, selectedText := "",
              parentMessages := [], topicSummary := none,
              recentTurns := [{ user := "q", assistant := "a" }] },
          enabledAgents := none, modelProvider := "claude",
          conversationMessages := [] }).effectiveUserMessage
      = "\n\nRecent conversation (Working Memory):\n\nTurn 1:\nUser: q\nAssistant: a\n\nCurrent message:\nhi" :=
  ((working_memory_rendering _ _ _ _ _ rfl rfl (by decide) (by decide)).1).trans
    (by decide)

theorem llm_create_none_of_litellm_fail (l : ServerLlm.LiteProv)
    (ap : Option ServerLlm.AnthProv) (parent : List Msg) (sel e : String)
    (h : l (ServerLlm.litellmCallOf
        (AgentsConfig.get_agent_config (some "fast")).model
        [("user", ServerLlm.summaryPromptOf sel
          (pyJoin "\n" (parent.map fmtMsg)))] none 5 200) = Except.error e) :
    ServerLlm.create_topic_summary (some l) ap parent sel = none := by
  simp only [ServerLlm.create_topic_summary]
  split
  · rfl
  · simp only [ServerLlm.call_litellm]
    rw [h]

theorem llm_create_none_of_anthropic_fail (a : ServerLlm.AnthProv)
    (parent : List Msg) (sel e : String)
    (h : a (ServerLlm.anthCallOf "claude-3-haiku-20240307" 200 5 none
        [("user", ServerLlm.summaryPromptOf sel
          (pyJoin "\n" (parent.map fmtMsg)))]) = Except.error e) :
    ServerLlm.create_topic_summary none (some a) parent sel = none := by
  simp only [ServerLlm.create_topic_summary]
  split
  · rfl
  · simp only [ServerLlm.call_anthropic_direct]
    rw [h]

/-- Claim C8: a raised provider error inside `create_topic_summary` yields
`None` rather than propagating, in `server.py` and on both backend paths of
`server_llm.py`; consequently a chat request whose summary calls all fail
still returns 200 with no `topicSummary` when the primary completion
succeeds. -/
theorem summary_failure_is_absorbed :
    (∀ (prov : Server.ClaudeProv) (parent : List Msg) (sel e : String),
       prov
         { model := "claude-3-haiku-20240307", max_tokens := 200,
           temperature := none, system := none,
           messages := [("user", Server.summaryPromptOf sel
             (pyJoin "\n" (parent.map fmtMsg)))] } = Except.error e →
       Server.create_topic_summary prov parent sel = none)
    ∧ (∀ (l : ServerLlm.LiteProv) (ap : Option ServerLlm.AnthProv)
         (parent : List Msg) (sel e : String),
         l (ServerLlm.litellmCallOf
             (AgentsConfig.get_agent_config (some "fast")).model
             [("user", ServerLlm.summaryPromptOf sel
               (pyJoin "\n" (parent.map fmtMsg)))] none 5 200)
           = Except.error e →
         ServerLlm.create_topic_summary (some l) ap parent sel = none)
    ∧ (∀ (a : ServerLlm.AnthProv) (parent : List Msg) (sel e : String),
         a (ServerLlm.anthCallOf "claude-3-haiku-20240307" 200 5 none
             [("user", ServerLlm.summaryPromptOf sel
               (pyJoin "\n" (parent.map fmtMsg)))]) = Except.error e →
         ServerLlm.create_topic_summary none (some a) parent sel = none)
    ∧ (∀ (prov : Server.ClaudeProv)
         (gemini : Option (String → Except String String))
         (timeoutOf : String → Option String) (req : Server.ChatRequest)
         (r : Server.ClaudeResp) (e : String),
         req.message ≠ "" → req.modelProvider ≠ "gemini" →
         (∀ c, c.max_tokens = 200 → prov c = Except.error e) →
         (∀ c, c.max_tokens = 2048 → prov c = Except.ok r) →
         (Server.chat prov gemini timeoutOf req).status = 200
         ∧ (∀ d, (Server.chat prov gemini timeoutOf req).data = some d →
             d.topicSummary = none)) := by
  refine ⟨create_topic_summary_none_of_fail,
    llm_create_none_of_litellm_fail, llm_create_none_of_anthropic_fail, ?_⟩
  intro prov gemini timeoutOf req r e hmsg hp hsfail hprim
  refine ⟨chat_status_200 prov gemini timeoutOf req r hmsg hp hprim, ?_⟩
  intro d hd
  rw [(chat_trace_fields prov gemini timeoutOf req hmsg).2.2.2 d hd,
    summaryForResponse_fst_of_fail prov req.contextPack e hsfail]

/-- Claim C8 witness: concrete failing providers yield `None` from each
summary path, and a request whose summary calls fail still gets a 200. -/
theorem summary_failure_is_absorbed_witness :
    Server.create_topic_summary (fun _ => Except.error "boom")
        [{ sender := "user", text := "x" }] "sel" = none
    ∧ ServerLlm.create_topic_summary (some (fun _ => Except.error "boom")) none
        [{ sender := "user", text := "x" }] "sel" = none
    ∧ ServerLlm.create_topic_summary none (some (fun _ => Except.error "boom"))
        [{ sender := "user", text := "x" }] "sel" = none
    ∧ (Server.chat
        (fun c => if c.max_tokens = 200 then Except.error "boom"
                  else Except.ok { text := "ok", model := "m" })
        none (fun _ => none)
        { message := "hi",
          contextPack := some
            { isTopicThread := true, selectedText := "sel",
              parentMessages := [{ sender := "user", text := "m1" }],
              topicSummary := none, recentTurns := [] },
          enabledAgents := none, modelProvider := "claude",
          conversationMessages := [] }).status = 200 :=
  ⟨summary_failure_is_absorbed.1 _ _ "sel" "boom" rfl,
   summary_failure_is_absorbed.2.1 _ none _ "sel" "boom" rfl,
   summary_failure_is_absorbed.2.2.1 _ _ "sel" "boom" rfl,
   (summary_failure_is_absorbed.2.2.2 _ none _ _ { text := "ok", model := "m" }
      "boom" (by decide) (by decide)
      (fun c hc => by simp [hc])
      (fun c hc => by simp [hc])).1⟩

/-- Claim C1 (code bug): on the spec scenario — topic thread, absent
`topicSummary`, four parent messages, successful backend — the handler invokes
`create_topic_summary` twice (once while assembling the prompt, a second,
independent time while building the response payload), not exactly once; the
`topicSummary` returned to the caller is the result of the second call. -/
theorem chat_summary_generated_twice :
    (Server.chat
        (fun _p => Except.ok { text := "A summary.", model := "claude-3-haiku-20240307" })
        none (fun _a => none)
        { message := "hi",
          contextPack := some
            { isTopicThread := true, selectedText := "sel",
              parentMessages := [{ sender := "user", text := "m1" },
                { sender := "assistant", text := "m2" },
                { sender := "user", text := "m3" },
                { sender := "assistant", text := "m4" }],
              topicSummary := none, recentTurns := [] },
          enabledAgents := none, modelProvider := "claude",
          conversationMessages := [] }).summaryCalls = 2
    ∧ (Server.chat
        (fun _p => Except.ok { text := "A summary.", model := "claude-3-haiku-20240307" })
        none (fun _a => none)
        { message := "hi",
          contextPack := some
            { isTopicThread := true, selectedText := "sel",
              parentMessages := [{ sender := "user", text := "m1" },
                { sender := "assistant", text := "m2" },
                { sender := "user", text := "m3" },
                { sender := "assistant", text := "m4" }],
              topicSummary := none, recentTurns := [] },
          enabledAgents := none, modelProvider := "claude",
          conversationMessages := [] }).data.map (fun d => d.topicSummary)
      = some (some "A summary.") := by
  exact ⟨rfl, by decide⟩

/-- Claim C2 counterexample: with LiteLLM configured and failing and a healthy
direct-Anthropic client configured, a default-persona request never invokes
the secondary provider (the persona model `agent-balanced` does not contain
`"claude"`), and the surfaced error is the generic
`"No LLM backend available"`, not the failure of the secondary — refuting the
claimed unconditional fallback. -/
theorem llm_fallback_not_invoked :
    ((ServerLlm.chat (some (fun _c => Except.error "primary down"))
        (some (fun _c => Except.ok { text := "ok", model := "claude-3-haiku-20240307" }))
        { message := "hi", contextPack := none, agent := none }).primaryCalls.length = 1)
    ∧ ((ServerLlm.chat (some (fun _c => Except.error "primary down"))
        (some (fun _c => Except.ok { text := "ok", model := "claude-3-haiku-20240307" }))
        { message := "hi", contextPack := none, agent := none }).fallbackCalls = [])
    ∧ ((ServerLlm.chat (some (fun _c => Except.error "primary down"))
        (some (fun _c => Except.ok { text := "ok", model := "claude-3-haiku-20240307" }))
        { message := "hi", contextPack := none, agent := none }).directCalls = [])
    ∧ ((ServerLlm.chat (some (fun _c => Except.error "primary down"))
        (some (fun _c => Except.ok { text := "ok", model := "claude-3-haiku-20240307" }))
        { message := "hi", contextPack := none, agent := none }).status = 500)
    ∧ ((ServerLlm.chat (some (fun _c => Except.error "primary down"))
        (some (fun _c => Except.ok { text := "ok", model := "claude-3-haiku-20240307" }))
        { message := "hi", contextPack := none, agent := none }).error
      = some "No LLM backend available") := by
  refine ⟨by decide, by decide, by decide, by decide, by decide⟩

/-- Claim C2 (amended): when the LiteLLM primary call raises, the
direct-Anthropic secondary is invoked only if that client is configured and
the persona model name contains `"claude"`; the invocation keeps the same
messages, system prompt, temperature and max-tokens but hard-codes the model
`claude-3-haiku-20240307`, and if it also raises, its error is the one
surfaced; otherwise no secondary call is made and the handler returns 500
`"No LLM backend available"`. -/
theorem llm_fallback_amended (lp : ServerLlm.LiteProv) (ap : ServerLlm.AnthProv)
    (req : ServerLlm.ChatRequest) (cfg : AgentsConfig.AgentConfig) (e : String)
    (hmsg : req.message ≠ "") (hcp : req.contextPack = none)
    (hcfg : AgentsConfig.get_agent_config
      (some (req.agent.getD AgentsConfig.DEFAULT_AGENT)) = cfg)
    (hfail : lp (ServerLlm.litellmCallOf cfg.model [("user", req.message)]
        (some cfg.system_prompt) cfg.temperature cfg.max_tokens)
      = Except.error e) :
    (("claude".data <:+: cfg.model.data) →
      ((ServerLlm.chat (some lp) (some ap) req).fallbackCalls
        = [ServerLlm.anthCallOf "claude-3-haiku-20240307" cfg.max_tokens
            cfg.temperature (some cfg.system_prompt) [("user", req.message)]])
      ∧ (∀ e2, ap (ServerLlm.anthCallOf "claude-3-haiku-20240307" cfg.max_tokens
            cfg.temperature (some cfg.system_prompt) [("user", req.message)])
            = Except.error e2 →
          (ServerLlm.chat (some lp) (some ap) req).status = 500
          ∧ (ServerLlm.chat (some lp) (some ap) req).error = some e2))
    ∧ (¬ ("claude".data <:+: cfg.model.data) →
        (ServerLlm.chat (some lp) (some ap) req).fallbackCalls = []
        ∧ (ServerLlm.chat (some lp) (some ap) req).status = 500
        ∧ (ServerLlm.chat (some lp) (some ap) req).error
            = some "No LLM backend available") := by
  simp only [ServerLlm.chat]
  rw [if_neg hmsg, hcfg, hcp]
  rw [show ServerLlm.assembleContext (some lp) (some ap) none cfg.system_prompt
      req.message = (cfg.system_prompt, req.message, 0) from rfl]
  simp only [ServerLlm.call_litellm]
  rw [hfail]
  dsimp only
  refine ⟨fun hinf => ?_, fun hninf => ?_⟩
  · rw [if_pos hinf]
    constructor
    · split <;> rfl
    · intro e2 he2
      simp only [ServerLlm.call_anthropic_direct]
      rw [he2]
      exact ⟨rfl, rfl⟩
  · rw [if_neg hninf]
    exact ⟨rfl, rfl, rfl⟩

/-- Claim C2 witness: for a concrete default-persona request with a failing
primary, the no-`"claude"`-in-model side of the amended claim applies — no
secondary call, status 500, generic error. -/
theorem llm_fallback_amended_witness :
    (ServerLlm.chat (some (fun _c => Except.error "router down"))
        (some (fun _c => Except.ok { text := "t", model := "m" }))
        { message := "hi", contextPack := none, agent := none }).fallbackCalls = []
    ∧ (ServerLlm.chat (some (fun _c => Except.error "router down"))
        (some (fun _c => Except.ok { text := "t", model := "m" }))
        { message := "hi", contextPack := none, agent := none }).status = 500
    ∧ (ServerLlm.chat (some (fun _c => Except.error "router down"))
        (some (fun _c => Except.ok { text := "t", model := "m" }))
        { message := "hi", contextPack := none, agent := none }).error
      = some "No LLM backend available" :=
  (llm_fallback_amended (fun _c => Except.error "router down")
    (fun _c => Except.ok { text := "t", model := "m" })
    { message := "hi", contextPack := none, agent := none }
    (AgentsConfig.get_agent_config
      (some ((none : Option String).getD AgentsConfig.DEFAULT_AGENT)))
    "router down" (by decide) rfl rfl rfl).2 (by decide)
